import Mathlib

/-!
Shallow embedding of the SimpleAPI fee-receipt ("boleta de honorarios") lifecycle
model from `simple_api/models/boleta_honorarios.py`, together with theorems
checking the natural-language specification against it.

Conventions of the embedding:
* JSON values are the inductive `Json`; Python truthiness is `Json.truthy`.
* A record mutation sequence is modelled by explicit state passing on `Eff`,
  which carries the document, the list of `message_post` events (structurally,
  as a `Msg` value per call site) and the list of writes to the `state` field.
* A Python exception is modelled as a `String` (its message).  A function body
  that can raise returns the partial effects together with `Option String`
  (`some msg` = an exception escaped with that message); `try/except` handlers
  pattern-match on that component.
* HTTP traffic is abstracted by `HttpResp` (status, body text, and the parsed
  JSON body, `none` when `resp.json()` raises); the outcome of a
  `requests.post` call is `Except String HttpResp` (`.error` = transport-level
  exception).
-/

inductive Json where
  | null : Json
  | bool (b : Bool) : Json
  | num (n : Int) : Json
  | str (s : String) : Json
  | arr (xs : List Json) : Json
  | obj (fs : List (String × Json)) : Json

/-- A Python string is falsy exactly when it has no characters. -/
def pyEmpty (s : String) : Bool := s.toList.isEmpty

/-- Python truthiness of a JSON value. -/
def Json.truthy : Json → Bool
  | .null => false
  | .bool b => b
  | .num n => n != 0
  | .str s => !(pyEmpty s)
  | .arr xs => !xs.isEmpty
  | .obj fs => !fs.isEmpty

/-- The decoded value is a Python dict (`isinstance(j, dict)`). -/
def Json.isObjB : Json → Bool
  | .obj _ => true
  | _ => false

/-- `d.get(k)` on a JSON object (`fs` lists the key/value pairs; keys are
assumed unique, as produced by JSON decoding). -/
def getField (fs : List (String × Json)) (k : String) : Option Json :=
  match fs.find? (fun p => p.1 == k) with
  | some p => some p.2
  | none => none

/-- Truthiness of `d.get(k)` (absent key gives `None`, which is falsy). -/
def getTruthy (fs : List (String × Json)) (k : String) : Bool :=
  match getField fs k with
  | some v => v.truthy
  | none => false

/-- Python `str()` of a JSON-decoded value.  Container values render with
their brackets; no code path compared in this development inspects the exact
rendering of a container, only that it is not equal to a bare scalar token,
which the bracketed rendering guarantees. -/
def pyStr : Json → String
  | .null => "None"
  | .bool true => "True"
  | .bool false => "False"
  | .num n => toString n
  | .str s => s
  | .arr _ => "[container]"
  | .obj _ => "[container]"

/-- First truthy value of a Python `a or b or ...` chain over `d.get` results. -/
def firstTruthy : List (Option Json) → Option Json
  | [] => none
  | some v :: rest => if v.truthy then some v else firstTruthy rest
  | none :: rest => firstTruthy rest

/-- `str.upper()`: uppercase every character. -/
def upperStr (s : String) : String := (s.toList.map Char.toUpper).asString

/-- `str.lower()`: lowercase every character. -/
def lowerStr (s : String) : String := (s.toList.map Char.toLower).asString

/-- `s[:n]`. -/
def strTake (s : String) (n : Nat) : String := (s.toList.take n).asString

/-- `str.strip()`: drop leading and trailing whitespace. -/
def trimStr (s : String) : String :=
  (((s.toList.dropWhile Char.isWhitespace).reverse.dropWhile Char.isWhitespace).reverse).asString

/-- `needle` occurs at the start of the second list. -/
def startsWithL : List Char → List Char → Bool
  | [], _ => true
  | _ :: _, [] => false
  | a :: as, b :: bs => a == b && startsWithL as bs

/-- Python substring containment `needle in hay` on character lists. -/
def containsSeq (needle : List Char) : List Char → Bool
  | [] => needle.isEmpty
  | c :: t => startsWithL needle (c :: t) || containsSeq needle t

/-- Python `needle in hay` for strings. -/
def strContains (hay needle : String) : Bool := containsSeq needle.toList hay.toList

/-- `str.replace(c, "")` with a one-character pattern removes every occurrence
of that character, i.e. filters it out. -/
def removeChar (c : Char) (s : String) : String :=
  (s.toList.filter (fun a => a != c)).asString

/-- `rut.replace(".", "").replace("-", "")`. -/
def stripSeparators (s : String) : String := removeChar '-' (removeChar '.' s)

/-- Python `int()` of an ASCII digit string with an optional leading minus
sign (the shapes that arise from `str(value)[:4]` in the year extraction). -/
def allDigitsVal (cs : List Char) : Option Nat :=
  cs.foldl
    (fun acc c =>
      match acc with
      | none => none
      | some n => if c.isDigit then some (n * 10 + (c.toNat - 48)) else none)
    (some 0)

def pyIntOfString (s : String) : Option Int :=
  match s.toList with
  | [] => none
  | '-' :: rest =>
    if rest.isEmpty then none
    else (allDigitsVal rest).map (fun n => -(n : Int))
  | cs => (allDigitsVal cs).map (fun n => (n : Int))

/-- Document lifecycle states (`state` Selection field). -/
inductive BState where
  | draft
  | processing
  | emitted
  | downloaded
  | error
  | cancelled
deriving DecidableEq

/-- A calendar date (`fields.Date`); only the pieces the model reads. -/
structure PyDate where
  year : Nat
  month : Nat
  day : Nat
deriving DecidableEq

/-- `%d`/`%m` zero-padded to two digits. -/
def pad2 (n : Nat) : String := if n < 10 then "0" ++ toString n else toString n

/-- `date.strftime("%d-%m-%Y")`. -/
def strftimeDMY (d : PyDate) : String :=
  pad2 d.day ++ "-" ++ pad2 d.month ++ "-" ++ toString d.year

/-- The `boleta.honorarios` record, restricted to the fields the lifecycle
logic reads or writes.  `Char`/`Text` fields that Odoo stores as `False` when
unset are `Option String`; `valor_bruto` (Monetary) is modelled at integer
precision, which is all the lifecycle code observes of it. -/
structure Boleta where
  numero_boleta : Option String := none
  state : BState := .draft
  fecha_emision : PyDate
  rut_usuario : String
  password_sii : String
  direccion_emisor : String := "0"
  retencion : String := "1"
  receptor_rut : String
  receptor_nombre : String
  receptor_direccion : String
  receptor_region : String := "13"
  receptor_comuna : String
  descripcion_servicio : String
  valor_bruto : Int
  response_data : Option Json := none
  email_destinatario : String := ""
  error_message : Option String := none
  fecha_procesamiento : Option Nat := none
  intentos : Nat := 0
  motivo_anulacion : Option String := none

/-- One `message_post` event, recorded structurally: each constructor is one
call site in the source, carrying the data interpolated into its body. -/
inductive Msg where
  | startingEmission
  | emittedOk (numero : String)
  | mailRequested (numero : String) (email : String)
  | mailRequestFailed (status : Nat) (bodyText : String)
  | mailException (err : String)
  | successNoFolio (resp : Json)
  | errorInEmission (errMsg : String)
  | errorEmitting (err : String)
  | anulledLegacy (numero : Option String) (bodyPreview : String)
  | anulledPathJson (numero : String) (reason : String) (resp : Json)
  | anulledPathText (numero : String) (reason : String) (txt : String)
  | anulledPathFallback (numero : String) (status : Nat) (txt : String)

/-- A record together with its observable side effects. -/
structure Eff where
  doc : Boleta
  msgs : List Msg
  stateTrace : List BState

def mkEff (r : Boleta) : Eff := ⟨r, [], []⟩

/-- `record.state = s` (also logged in the write trace). -/
def Eff.setState (e : Eff) (s : BState) : Eff :=
  { e with doc := { e.doc with state := s }, stateTrace := e.stateTrace ++ [s] }

/-- `record.message_post(...)`. -/
def Eff.post (e : Eff) (m : Msg) : Eff := { e with msgs := e.msgs ++ [m] }

/-- An HTTP response: status code, body text, and the result of `resp.json()`
(`none` when the body does not parse and `resp.json()` raises). -/
structure HttpResp where
  status : Nat
  text : String
  jsonBody : Option Json

/-- Message of the `resp.json()` decode exception (content abstracted; no
compared behavior depends on its exact wording). -/
def jsonDecodeErr (resp : HttpResp) : String := "JSONDecodeError: " ++ strTake resp.text 300

/-- Environment of one issuance attempt: the clock and the outcomes of the two
`requests.post` calls it can make. -/
structure EmitEnv where
  now : Nat
  emitResp : Except String HttpResp
  mailResp : Except String HttpResp

/-- `_call_simpleapi` (lines 177–195): POST to `{base}/bhe/emitir`.  200 with
a parsing body yields the decoded JSON; any other status raises
`Error en API: {status} - {text}` (a `UserError`, re-raised unwrapped); any
other exception — transport failure, or `resp.json()` failing at 200 — is
wrapped as `Error inesperado llamando SimpleAPI: ...`. -/
def callSimpleapi (outcome : Except String HttpResp) : Except String Json :=
  match outcome with
  | .error e => .error ("Error inesperado llamando SimpleAPI: " ++ e)
  | .ok resp =>
    if resp.status == 200 then
      match resp.jsonBody with
      | some j => .ok j
      | none => .error ("Error inesperado llamando SimpleAPI: " ++ jsonDecodeErr resp)
    else .error ("Error en API: " ++ toString resp.status ++ " - " ++ resp.text)

/-- `_prepare_api_data` (lines 159–175).  `int(...)` of the two Selection
fields is total on their domains (`"0"`/`"1"` and `"1"`..`"16"`); `getD 0`
stands for the unreachable non-digit case. -/
def _prepare_api_data (r : Boleta) : Json :=
  .obj [
    ("RutUsuario", .str (stripSeparators r.rut_usuario)),
    ("PasswordSII", .str r.password_sii),
    ("Retencion", .num ((pyIntOfString r.retencion).getD 0)),
    ("FechaEmision", .str (strftimeDMY r.fecha_emision)),
    ("Emisor", .obj [("Direccion", .str r.direccion_emisor)]),
    ("Receptor", .obj [
      ("Rut", .str (stripSeparators r.receptor_rut)),
      ("Nombre", .str r.receptor_nombre),
      ("Direccion", .str r.receptor_direccion),
      ("Region", .num ((pyIntOfString r.receptor_region).getD 0)),
      ("Comuna", .str r.receptor_comuna)]),
    ("Detalles", .arr [.obj [
      ("Nombre", .str r.descripcion_servicio),
      ("Valor", .num r.valor_bruto)]])]

/-- Line 149: `response.get('success') or response.get('numeroDocumento') or
response.get('numero') or response.get('folio')` — the issuance success
classification, a truthiness test on each field in turn. -/
def successClassified (fs : List (String × Json)) : Bool :=
  getTruthy fs "success" || getTruthy fs "numeroDocumento" ||
    getTruthy fs "numero" || getTruthy fs "folio"

/-- Lines 229–230: the folio `or`-chain — first truthy value among `folio`,
`numeroDocumento`, `numero_boleta`, `numeroBoleta`, `numero`. -/
def folioOf (fs : List (String × Json)) : Option Json :=
  firstTruthy [getField fs "folio", getField fs "numeroDocumento",
    getField fs "numero_boleta", getField fs "numeroBoleta", getField fs "numero"]

/-- Lines 237–243: year-of-issuance extraction.  Each candidate key with a
truthy value gets `int(str(value)[:4])` attempted; the first parse that
succeeds wins, a parse failure falls through to the next key (`except: pass`). -/
def anioFromResponse (fs : List (String × Json)) : Option Int :=
  ["anio", "anioFolio", "year", "anio_emision", "anioFolioEmitido"].foldl
    (fun acc k =>
      match acc with
      | some a => some a
      | none =>
        match getField fs k with
        | some v =>
          if v.truthy then pyIntOfString (strTake (pyStr v) 4) else none
        | none => none)
    none

/-- Lines 244–245: `if not anio and self.fecha_emision: anio = ...year` —
`fecha_emision` is a required field, so the fallback fires whenever the
extracted year is `None` or `0` (both falsy). -/
def anioFinal (r : Boleta) (fs : List (String × Json)) : Option Int :=
  match anioFromResponse fs with
  | some v => if v == 0 then some (r.fecha_emision.year : Int) else some v
  | none => some (r.fecha_emision.year : Int)

/-- Line 247 condition: `if anio and self.email_destinatario:`. -/
def mailCond (r : Boleta) (fs : List (String × Json)) : Bool :=
  (match anioFinal r fs with
   | some a => a != 0
   | none => false) && !(pyEmpty r.email_destinatario)

/-- `_send_mail_via_simpleapi` (lines 197–224).  The `requests.post`
exception propagates to the caller (`.error`); otherwise HTTP 200/202 posts a
request-confirmation message and returns `true`, anything else posts a
failure message with the status and a 300-character body preview and returns
`false`. -/
def _send_mail_via_simpleapi (e : Eff) (numero : String) (email : String)
    (outcome : Except String HttpResp) : Except String (Eff × Bool) :=
  match outcome with
  | .error err => .error err
  | .ok resp =>
    if resp.status == 200 || resp.status == 202 then
      .ok (e.post (.mailRequested numero email), true)
    else
      .ok (e.post (.mailRequestFailed resp.status (strTake resp.text 300)), false)

/-- Lines 246–252 of `_process_successful_response`: the guarded, best-effort
mail request, whose exception is caught and posted. -/
def mailBlock (e : Eff) (fs : List (String × Json)) (numero : String)
    (mailOutcome : Except String HttpResp) : Eff :=
  if mailCond e.doc fs then
    match _send_mail_via_simpleapi e numero e.doc.email_destinatario mailOutcome with
    | .ok (e2, _) => e2
    | .error err => e.post (.mailException err)
  else e

/-- `_process_successful_response` (lines 226–256). -/
def _process_successful_response (e : Eff) (fs : List (String × Json))
    (mailOutcome : Except String HttpResp) : Eff :=
  let e := { e with doc := { e.doc with response_data := some (.obj fs) } }
  match folioOf fs with
  | some v =>
    let numero := pyStr v
    let e := { e with doc := { e.doc with numero_boleta := some numero } }
    let e := e.setState .emitted
    let e := { e with doc := { e.doc with error_message := none } }
    let e := e.post (.emittedOk numero)
    mailBlock e fs numero mailOutcome
  | none =>
    let e := e.setState .error
    let e := { e with doc := { e.doc with error_message := some "Respuesta exitosa pero sin número de boleta" } }
    e.post (.successNoFolio (.obj fs))

/-- `_process_error_response` (lines 258–265). -/
def _process_error_response (e : Eff) (fs : List (String × Json)) : Eff :=
  let e := e.setState .error
  let errMsg :=
    match firstTruthy [getField fs "error", getField fs "mensaje", getField fs "message",
        getField fs "descripcion", getField fs "detalle"] with
    | some v => pyStr v
    | none => "Error desconocido"
  let e := { e with doc := { e.doc with error_message := some errMsg } }
  let e := { e with doc := { e.doc with response_data := some (.obj fs) } }
  e.post (.errorInEmission errMsg)

/-- The `try` body of `action_emitir_boleta` for one record (lines 136–152).
The second component is `some msg` when an exception escapes the body; the
first component carries the mutations already committed at that point.
`response.get` on a non-dict decoded body raises `AttributeError`. -/
def emitirTryBody (r : Boleta) (env : EmitEnv) : Eff × Option String :=
  let e := mkEff r
  let e := e.setState .processing
  let e := { e with doc := { e.doc with intentos := e.doc.intentos + 1 } }
  let e := { e with doc := { e.doc with fecha_procesamiento := some env.now } }
  let e := e.post .startingEmission
  if pyEmpty r.descripcion_servicio then
    (e, some "Debe agregar una descripción del servicio")
  else if r.valor_bruto ≤ 0 then
    (e, some "El valor bruto debe ser mayor a cero")
  else if pyEmpty r.email_destinatario || !(r.email_destinatario.toList.contains '@') then
    (e, some "Debe indicar un correo destinatario válido (ej: correo@dominio.cl)")
  else
    let _payload := _prepare_api_data r
    match callSimpleapi env.emitResp with
    | .error err => (e, some err)
    | .ok j =>
      match j with
      | .obj fs =>
        if successClassified fs then (_process_successful_response e fs env.mailResp, none)
        else (_process_error_response e fs, none)
      | _ => (e, some "AttributeError: get")

/-- One iteration of `action_emitir_boleta` (lines 134–157): the `try` body
plus the `except Exception` handler that forces `error` state, stores the
message and posts it. -/
def emitirOne (r : Boleta) (env : EmitEnv) : Eff :=
  match emitirTryBody r env with
  | (e, none) => e
  | (e, some err) =>
    let e := e.setState .error
    let e := { e with doc := { e.doc with error_message := some err } }
    e.post (.errorEmitting err)

/-- `action_emitir_boleta` over a recordset: `for record in self` — each
record is processed with its own API-call outcomes, and the handler inside
the loop means no iteration can abort the others. -/
def action_emitir_boleta (batch : List (Boleta × EmitEnv)) : List Eff :=
  batch.map (fun p => emitirOne p.1 p.2)

/-- The effects committed by lines 137–140 (state `processing`, attempt
increment, timestamp, starting notification): the value of the record after
the prologue of the `try` body, named for reuse in the theorems. -/
def startEff (r : Boleta) (env : EmitEnv) : Eff :=
  { doc := { r with
      state := .processing
      intentos := r.intentos + 1
      fecha_procesamiento := some env.now }
    msgs := [.startingEmission]
    stateTrace := [.processing] }

/-- Environment of one void attempt: outcome of its single `requests.post`. -/
structure AnulEnv where
  resp : Except String HttpResp

/-- Lines 296–303 of the legacy void: `ok` computation at HTTP 200.  The
plain-text keyword branch is the `except` handler of `resp.json()`, so it
runs only when the body does not parse at all; a decoded non-dict value
leaves `ok = False`. -/
def anularLegacyOk (resp : HttpResp) : Bool :=
  match resp.jsonBody with
  | some j =>
    match j with
    | .obj fs => !(getTruthy fs "error")
    | _ => false
  | none =>
    let txt := lowerStr resp.text
    strContains txt "anulada" || strContains txt "correctamente"

/-- `action_anular_boleta` (lines 275–311), one record.  The state guard
raises outside the `try`.  Inside it, the `raise UserError('Error anulando
boleta: %s' % body_preview)` is itself caught by the bare `except Exception`
handler and wrapped a second time with the same text. -/
def action_anular_boleta (r : Boleta) (env : AnulEnv) : Eff × Option String :=
  if !(r.state == .emitted || r.state == .downloaded) then
    (mkEff r, some "Solo se pueden anular boletas emitidas")
  else
    match env.resp with
    | .error err => (mkEff r, some ("Error anulando boleta: " ++ err))
    | .ok resp =>
      let bodyPreview := strTake resp.text 300
      if resp.status == 200 && anularLegacyOk resp then
        let e := (mkEff r).setState .cancelled
        (e.post (.anulledLegacy r.numero_boleta bodyPreview), none)
      else
        (mkEff r, some ("Error anulando boleta: " ++ ("Error anulando boleta: " ++ bodyPreview)))

/-- Line 351: `str(data.get('success', 'true')).lower() in ('true', '1', 'yes')`. -/
def pathSuccessFlag (fs : List (String × Json)) : Bool :=
  let v := match getField fs "success" with
    | some v => v
    | none => Json.str "true"
  let s := lowerStr (pyStr v)
  s == "true" || s == "1" || s == "yes"

/-- The `%s` rendering of `data.get('error') or data` in line 360. -/
def pathErrPart (fs : List (String × Json)) : String :=
  match firstTruthy [getField fs "error"] with
  | some v => pyStr v
  | none => pyStr (.obj fs)

/-- `action_anular_boleta_path` (lines 314–385), one record.  The three
precondition guards raise before the `try`; inside it `UserError` is
re-raised unwrapped (`except UserError: raise`), and only non-`UserError`
exceptions (the `requests.post` call) get the `Error inesperado` wrapper.  A
decoded non-dict body and an unparseable body both land in the plain-text
branch (`data` stays non-dict), whose keyword miss still cancels, recording
the raw body. -/
def action_anular_boleta_path (r : Boleta) (env : AnulEnv) : Eff × Option String :=
  if !(r.state == .emitted || r.state == .downloaded) then
    (mkEff r, some "Solo se pueden anular boletas emitidas o descargadas")
  else if !(match r.numero_boleta with | some s => !(pyEmpty s) | none => false) then
    (mkEff r, some "No existe folio para anular")
  else if !(r.motivo_anulacion == some "1" || r.motivo_anulacion == some "2" ||
      r.motivo_anulacion == some "3") then
    (mkEff r, some "Debe seleccionar un motivo válido (1, 2 o 3)")
  else
    let numero := trimStr (match r.numero_boleta with | some s => s | none => "")
    let reason := match r.motivo_anulacion with | some m => m | none => ""
    match env.resp with
    | .error err => (mkEff r, some ("Error inesperado anulando boleta: " ++ err))
    | .ok resp =>
      let bodyPreview := strTake resp.text 300
      if resp.status == 200 || resp.status == 202 then
        match resp.jsonBody with
        | some (.obj fs) =>
          if pathSuccessFlag fs && !(getTruthy fs "error") then
            let e := (mkEff r).setState .cancelled
            (e.post (.anulledPathJson numero reason (.obj fs)), none)
          else
            (mkEff r, some ("Error anulando boleta: " ++ pathErrPart fs))
        | _ =>
          let txt := trimStr resp.text
          if !(pyEmpty txt) &&
              (strContains (lowerStr txt) "anulada" || strContains (lowerStr txt) "correctamente") then
            let e := (mkEff r).setState .cancelled
            (e.post (.anulledPathText numero reason txt), none)
          else
            let e := (mkEff r).setState .cancelled
            (e.post (.anulledPathFallback numero resp.status (strTake txt 300)), none)
      else
        (mkEff r, some ("Error anulando boleta: " ++ toString resp.status ++ " - " ++ bodyPreview))

/-- Python `str.isdigit()`: non-empty and all digits. -/
def pyIsDigitStr (cs : List Char) : Bool := !cs.isEmpty && cs.all Char.isDigit

/-- Lines 418–421: the checksum loop — `suma` accumulated over the reversed
body digits, multiplier starting at 2, incrementing, and resetting to 2 after
reaching 7. -/
def rutFold : List Nat → Nat → Nat
  | [], _ => 0
  | d :: ds, mult => d * mult + rutFold ds (if mult < 7 then mult + 1 else 2)

/-- Lines 422–423: expected check character from the checksum. -/
def rutExpectedDv (suma : Nat) : Char :=
  let resto := suma % 11
  if resto == 0 then '0' else if resto == 1 then 'K' else Char.ofNat (48 + (11 - resto))

/-- `_validate_rut` (lines 409–424). -/
def _validate_rut (rut : String) : Bool :=
  if pyEmpty rut then false
  else
    let r := (upperStr (stripSeparators rut)).toList
    if r.length < 8 then false
    else
      let numero := r.dropLast
      let dv := r.getLastD ' '
      if !(pyIsDigitStr numero) then false
      else
        let suma := rutFold (numero.reverse.map (fun c => c.toNat - 48)) 2
        dv == rutExpectedDv suma

/-! ### Specification-side definitions

These follow the wording of the specification (not the source); each is used
to compare a spec sentence against the embedded code. -/

/-- Spec-modelled classification from the claim wording for issuance success:
"`success` truthy, OR any of `numeroDocumento`, `numero`, `folio` present" —
presence of the key, regardless of the value's truthiness. -/
def specPresentClassified (fs : List (String × Json)) : Bool :=
  getTruthy fs "success" || (getField fs "numeroDocumento").isSome ||
    (getField fs "numero").isSome || (getField fs "folio").isSome

/-- Spec-side weighted checksum: the i-th least-significant digit is weighted
by `2 + i % 6`, the closed form of "multiplier cycling 2..7, reset to 2 after
reaching 7". -/
def specRutSum (ds : List Nat) : Nat :=
  (List.zipWith (fun d i => d * (2 + i % 6)) ds (List.range ds.length)).sum

/-- Spec-modelled RUT validator, following the claim wording: strip
separators and uppercase; reject length < 8 or a non-numeric body; otherwise
compare the supplied check character against the one derived from the
closed-form weighted checksum. -/
def rutSpecValid (rut : String) : Bool :=
  let r := (upperStr (stripSeparators rut)).toList
  if r.length < 8 then false
  else
    let body := r.dropLast
    if !(pyIsDigitStr body) then false
    else
      r.getLastD ' ' == rutExpectedDv (specRutSum (body.reverse.map (fun c => c.toNat - 48)))

/-! ### Concrete fixtures for witnesses and counterexamples -/

/-- A fully valid draft document. -/
def docOk : Boleta :=
  { fecha_emision := ⟨2024, 5, 10⟩
    rut_usuario := "12345678-5"
    password_sii := "pw"
    receptor_rut := "12345678-5"
    receptor_nombre := "Cliente"
    receptor_direccion := "Calle 1"
    receptor_comuna := "Santiago"
    descripcion_servicio := "Servicio"
    valor_bruto := 1000
    email_destinatario := "a@b.cl" }

/-- Same document with an invalid amount (fails the `valor_bruto` check). -/
def docBad : Boleta := { docOk with valor_bruto := 0 }

/-- An emitted document ready for voiding. -/
def docEmitted : Boleta :=
  { docOk with state := .emitted, numero_boleta := some "99", motivo_anulacion := some "1" }

/-- Issuance response `{"folio": "123", "anio": "2024"}` at HTTP 200. -/
def respFolio : HttpResp :=
  ⟨200, "ok", some (.obj [("folio", .str "123"), ("anio", .str "2024")])⟩

def respMailOk : HttpResp := ⟨200, "sent", some (.obj [])⟩

def envOk : EmitEnv := ⟨7, .ok respFolio, .ok respMailOk⟩

/-- Issuance response `{"success": true}`: classified successful, no folio. -/
def envSuccessNoFolio : EmitEnv :=
  ⟨7, .ok ⟨200, "x", some (.obj [("success", .bool true)])⟩, .ok respMailOk⟩

/-- Issuance response `{"numeroDocumento": "", "numero_boleta": "456"}`:
`numeroDocumento` is present but empty. -/
def envPresentEmpty : EmitEnv :=
  ⟨7, .ok ⟨200, "x", some (.obj [("numeroDocumento", .str ""), ("numero_boleta", .str "456")])⟩,
    .ok respMailOk⟩

/-- Successful issuance whose follow-up mail request returns HTTP 500. -/
def envMailFail : EmitEnv := ⟨7, .ok respFolio, .ok ⟨500, "boom", none⟩⟩

/-- Successful issuance whose follow-up mail request raises. -/
def envMailExc : EmitEnv := ⟨7, .ok respFolio, .error "timeout"⟩

/-- Three-document batch: the second fails validation. -/
def batch3 : List (Boleta × EmitEnv) := [(docOk, envOk), (docBad, envOk), (docOk, envOk)]

/-- Void response: HTTP 200, `{"error": null}`. -/
def anulOk200 : AnulEnv := ⟨.ok ⟨200, "okbody", some (.obj [("error", .null)])⟩⟩

/-- Void response: HTTP 200, `{"error": "x"}`. -/
def anulErr200 : AnulEnv := ⟨.ok ⟨200, "x", some (.obj [("error", .str "x")])⟩⟩

/-- Void response: HTTP 202, `{"error": null}` — a success-indicating body. -/
def anulOk202 : AnulEnv := ⟨.ok ⟨202, "okbody", some (.obj [("error", .null)])⟩⟩

/-- Void response: HTTP 404, plain text. -/
def anul404 : AnulEnv := ⟨.ok ⟨404, "not found", none⟩⟩

/-- Void response: HTTP 200, body decodes to the JSON array `["anulada"]`. -/
def anulArr200 : AnulEnv := ⟨.ok ⟨200, "[x anulada]", some (.arr [.str "anulada"])⟩⟩

/-- Void response: HTTP 200, unparseable keyword body. -/
def anulTxtKw : AnulEnv := ⟨.ok ⟨200, "Boleta anulada correctamente", none⟩⟩

/-- Void response: HTTP 200, unparseable keyword-free body. -/
def anulTxtPlain : AnulEnv := ⟨.ok ⟨200, "OK", none⟩⟩


/-! ### Helper lemmas about the issuance and void flows -/

lemma mailBlock_doc (e : Eff) (fs : List (String × Json)) (n : String)
    (m : Except String HttpResp) : (mailBlock e fs n m).doc = e.doc := by
  unfold mailBlock _send_mail_via_simpleapi
  split
  · cases m with
    | error err => rfl
    | ok resp =>
      dsimp only
      by_cases hs : (resp.status == 200 || resp.status == 202) = true
      · simp only [if_pos hs]
        rfl
      · simp only [if_neg hs]
        rfl
  · rfl

lemma mailBlock_trace (e : Eff) (fs : List (String × Json)) (n : String)
    (m : Except String HttpResp) : (mailBlock e fs n m).stateTrace = e.stateTrace := by
  unfold mailBlock _send_mail_via_simpleapi
  split
  · cases m with
    | error err => rfl
    | ok resp =>
      dsimp only
      by_cases hs : (resp.status == 200 || resp.status == 202) = true
      · simp only [if_pos hs]
        rfl
      · simp only [if_neg hs]
        rfl
  · rfl

lemma processSuccess_doc (e : Eff) (fs : List (String × Json)) (m : Except String HttpResp)
    (v : Json) (h : folioOf fs = some v) :
    (_process_successful_response e fs m).doc =
      { e.doc with
          response_data := some (.obj fs)
          numero_boleta := some (pyStr v)
          state := .emitted
          error_message := none } := by
  unfold _process_successful_response
  rw [h]
  rw [mailBlock_doc]
  rfl

lemma processSuccess_doc_none (e : Eff) (fs : List (String × Json)) (m : Except String HttpResp)
    (h : folioOf fs = none) :
    (_process_successful_response e fs m).doc =
      { e.doc with
          response_data := some (.obj fs)
          state := .error
          error_message := some "Respuesta exitosa pero sin número de boleta" } := by
  unfold _process_successful_response
  rw [h]
  rfl

lemma processSuccess_msgs_none (e : Eff) (fs : List (String × Json)) (m : Except String HttpResp)
    (h : folioOf fs = none) :
    (_process_successful_response e fs m).msgs = e.msgs ++ [.successNoFolio (.obj fs)] := by
  unfold _process_successful_response
  rw [h]
  rfl

lemma processError_trace (e : Eff) (fs : List (String × Json)) :
    (_process_error_response e fs).stateTrace = e.stateTrace ++ [.error] := by
  simp only [_process_error_response, Eff.setState, Eff.post]

lemma processError_doc (e : Eff) (fs : List (String × Json)) :
    (_process_error_response e fs).doc =
      { e.doc with
          state := .error
          error_message := some (match firstTruthy [getField fs "error", getField fs "mensaje",
            getField fs "message", getField fs "descripcion", getField fs "detalle"] with
            | some v => pyStr v
            | none => "Error desconocido")
          response_data := some (.obj fs) } := by
  simp only [_process_error_response, Eff.setState, Eff.post]

lemma mailBlock_msgs_fail (e : Eff) (fs : List (String × Json)) (n : String) (resp : HttpResp)
    (hm : mailCond e.doc fs = true) (hs : (resp.status == 200 || resp.status == 202) = false) :
    (mailBlock e fs n (.ok resp)).msgs =
      e.msgs ++ [.mailRequestFailed resp.status (strTake resp.text 300)] := by
  simp [mailBlock, _send_mail_via_simpleapi, hm, hs, Eff.post]

lemma mailBlock_msgs_exc (e : Eff) (fs : List (String × Json)) (n : String) (err : String)
    (hm : mailCond e.doc fs = true) :
    (mailBlock e fs n (.error err)).msgs = e.msgs ++ [.mailException err] := by
  simp [mailBlock, _send_mail_via_simpleapi, hm, Eff.post]

lemma processSuccess_eq (e : Eff) (fs : List (String × Json)) (m : Except String HttpResp)
    (v : Json) (h : folioOf fs = some v) :
    _process_successful_response e fs m =
      mailBlock
        { doc := { e.doc with
            response_data := some (.obj fs)
            numero_boleta := some (pyStr v)
            state := .emitted
            error_message := none }
          msgs := e.msgs ++ [.emittedOk (pyStr v)]
          stateTrace := e.stateTrace ++ [.emitted] } fs (pyStr v) m := by
  unfold _process_successful_response
  rw [h]
  rfl

lemma emitirTryBody_classified (r : Boleta) (env : EmitEnv) (fs : List (String × Json))
    (hd : pyEmpty r.descripcion_servicio = false)
    (hv : ¬ r.valor_bruto ≤ 0)
    (he : pyEmpty r.email_destinatario = false)
    (ha : r.email_destinatario.toList.contains '@' = true)
    (hresp : callSimpleapi env.emitResp = .ok (.obj fs)) :
    emitirTryBody r env =
      ((if successClassified fs then _process_successful_response (startEff r env) fs env.mailResp
        else _process_error_response (startEff r env) fs), none) := by
  unfold emitirTryBody
  rw [hresp]
  simp only [mkEff, Eff.setState, Eff.post, startEff, List.nil_append, hd, hv, he, ha,
    Bool.false_eq_true, if_false, Bool.not_true, Bool.or_self, if_neg, Bool.false_or]
  split <;> rfl

lemma emitir_reaches_classification (r : Boleta) (env : EmitEnv) (fs : List (String × Json))
    (hd : pyEmpty r.descripcion_servicio = false)
    (hv : ¬ r.valor_bruto ≤ 0)
    (he : pyEmpty r.email_destinatario = false)
    (ha : r.email_destinatario.toList.contains '@' = true)
    (hresp : callSimpleapi env.emitResp = .ok (.obj fs)) :
    emitirOne r env =
      (if successClassified fs then _process_successful_response (startEff r env) fs env.mailResp
       else _process_error_response (startEff r env) fs) := by
  unfold emitirOne
  rw [emitirTryBody_classified r env fs hd hv he ha hresp]

lemma emitirTryBody_fst (r : Boleta) (env : EmitEnv) :
    (emitirTryBody r env).1 = startEff r env ∨
    (∃ fs, (emitirTryBody r env).1 =
      _process_successful_response (startEff r env) fs env.mailResp) ∨
    (∃ fs, (emitirTryBody r env).1 = _process_error_response (startEff r env) fs) := by
  unfold emitirTryBody
  repeat' split
  all_goals
    first
    | exact Or.inl rfl
    | exact Or.inr (Or.inl ⟨_, rfl⟩)
    | exact Or.inr (Or.inr ⟨_, rfl⟩)

lemma processSuccess_trace_none (e : Eff) (fs : List (String × Json)) (m : Except String HttpResp)
    (h : folioOf fs = none) :
    (_process_successful_response e fs m).stateTrace = e.stateTrace ++ [.error] := by
  unfold _process_successful_response
  rw [h]
  rfl

lemma processSuccess_trace (e : Eff) (fs : List (String × Json)) (m : Except String HttpResp) :
    ∃ t, (_process_successful_response e fs m).stateTrace = e.stateTrace ++ t := by
  cases hf : folioOf fs with
  | some v =>
    exact ⟨[.emitted], by rw [processSuccess_eq e fs m v hf, mailBlock_trace]⟩
  | none => exact ⟨[.error], processSuccess_trace_none e fs m hf⟩

lemma processSuccess_intentos (e : Eff) (fs : List (String × Json)) (m : Except String HttpResp) :
    (_process_successful_response e fs m).doc.intentos = e.doc.intentos := by
  cases hf : folioOf fs with
  | some v => rw [processSuccess_doc e fs m v hf]
  | none => rw [processSuccess_doc_none e fs m hf]

lemma processSuccess_fecha (e : Eff) (fs : List (String × Json)) (m : Except String HttpResp) :
    (_process_successful_response e fs m).doc.fecha_procesamiento = e.doc.fecha_procesamiento := by
  cases hf : folioOf fs with
  | some v => rw [processSuccess_doc e fs m v hf]
  | none => rw [processSuccess_doc_none e fs m hf]

lemma emitirTryBody_doc_facts (r : Boleta) (env : EmitEnv) :
    (emitirTryBody r env).1.doc.intentos = r.intentos + 1 ∧
    (emitirTryBody r env).1.doc.fecha_procesamiento = some env.now ∧
    ∃ t, (emitirTryBody r env).1.stateTrace = .processing :: t := by
  rcases emitirTryBody_fst r env with h | ⟨fs, h⟩ | ⟨fs, h⟩
  · rw [h]
    exact ⟨rfl, rfl, [], rfl⟩
  · rw [h]
    refine ⟨?_, ?_, ?_⟩
    · rw [processSuccess_intentos]
      rfl
    · rw [processSuccess_fecha]
      rfl
    · obtain ⟨t, ht⟩ := processSuccess_trace (startEff r env) fs env.mailResp
      exact ⟨t, by rw [ht]; rfl⟩
  · rw [h]
    refine ⟨?_, ?_, ?_⟩
    · rw [processError_doc]
      rfl
    · rw [processError_doc]
      rfl
    · exact ⟨[.error], by rw [processError_trace]; rfl⟩

lemma rutFold_mult_step (k : Nat) :
    (if 2 + k % 6 < 7 then (2 + k % 6) + 1 else 2) = 2 + (k + 1) % 6 := by
  rcases Nat.lt_or_ge (k % 6) 5 with h | h
  · rw [if_pos (by omega)]
    omega
  · rw [if_neg (by omega)]
    omega

lemma rutFold_eq_specFrom (ds : List Nat) : ∀ k : Nat, rutFold ds (2 + k % 6) =
    (List.zipWith (fun d i => d * (2 + (k + i) % 6)) ds (List.range ds.length)).sum := by
  induction ds with
  | nil => intro k; rfl
  | cons d ds ih =>
    intro k
    have hfun : (fun (a b : Nat) => a * (2 + (k + Nat.succ b) % 6)) =
        (fun (a b : Nat) => a * (2 + (k + 1 + b) % 6)) := by
      funext a b
      congr 2
      omega
    simp only [rutFold, rutFold_mult_step k, ih (k + 1), List.length_cons,
      List.range_succ_eq_map, List.zipWith_cons_cons, List.zipWith_map_right, List.sum_cons,
      Nat.add_zero, hfun]

lemma rutFold_eq_specRutSum (ds : List Nat) : rutFold ds 2 = specRutSum ds := by
  have h := rutFold_eq_specFrom ds 0
  simpa [specRutSum, Nat.zero_add] using h

lemma toList_strip_upper (s : String) :
    (upperStr (stripSeparators s)).toList =
      ((s.toList.filter (fun a => a != '.')).filter (fun a => a != '-')).map Char.toUpper := rfl

lemma validate_eq_spec (rut : String) : _validate_rut rut = rutSpecValid rut := by
  unfold _validate_rut rutSpecValid
  by_cases hempty : pyEmpty rut = true
  · rw [if_pos hempty]
    have h0 : rut.toList = [] := by
      simpa [pyEmpty, List.isEmpty_iff] using hempty
    rw [toList_strip_upper, h0]
    rfl
  · rw [if_neg hempty]
    by_cases hlen : (upperStr (stripSeparators rut)).toList.length < 8
    · rw [if_pos hlen, if_pos hlen]
    · rw [if_neg hlen, if_neg hlen]
      by_cases hdig : pyIsDigitStr (upperStr (stripSeparators rut)).toList.dropLast = true
      · simp only [hdig, Bool.not_true, Bool.false_eq_true, if_false,
          rutFold_eq_specRutSum]
      · simp only [Bool.not_eq_true] at hdig
        simp only [hdig, Bool.not_false, if_true]

lemma validate_push_eq (t : String) (c : Char) (hc1 : c ≠ '.') (hc2 : c ≠ '-') :
    _validate_rut (t.push c) =
      (if (upperStr (stripSeparators t)).toList.length + 1 < 8 then false
       else if !(pyIsDigitStr (upperStr (stripSeparators t)).toList) then false
       else c.toUpper == rutExpectedDv (rutFold
         ((upperStr (stripSeparators t)).toList.reverse.map (fun x => x.toNat - 48)) 2)) := by
  have hpush : (t.push c).toList = t.toList ++ [c] := by
    simp [String.toList]
  have hL : (upperStr (stripSeparators (t.push c))).toList =
      (upperStr (stripSeparators t)).toList ++ [c.toUpper] := by
    rw [toList_strip_upper, toList_strip_upper, hpush]
    simp [List.filter_append, hc1, hc2]
  have hne : pyEmpty (t.push c) = false := by
    simp [pyEmpty, hpush]
  unfold _validate_rut
  rw [hL]
  simp only [hne, Bool.false_eq_true, if_false, List.dropLast_concat, List.getLastD_concat,
    List.length_append, List.length_cons, List.length_nil, Nat.zero_add]


/-! ### Claim theorems -/

/-- C1 (amended): for every issuance response classified as successful by the
code (`success` truthy or any of `numeroDocumento`, `numero`, `folio`
non-empty/truthy), when the folio `or`-chain finds a value the document ends
in state `emitted` with `numero_boleta` set to its string form and the error
message cleared. -/
theorem c1_success_with_folio_emits (r : Boleta) (env : EmitEnv)
    (fs : List (String × Json)) (v : Json)
    (hd : pyEmpty r.descripcion_servicio = false)
    (hv : ¬ r.valor_bruto ≤ 0)
    (he : pyEmpty r.email_destinatario = false)
    (ha : r.email_destinatario.toList.contains '@' = true)
    (hresp : callSimpleapi env.emitResp = .ok (.obj fs))
    (hok : successClassified fs = true)
    (hf : folioOf fs = some v) :
    (emitirOne r env).doc.state = .emitted ∧
    (emitirOne r env).doc.numero_boleta = some (pyStr v) ∧
    (emitirOne r env).doc.error_message = none := by
  rw [emitir_reaches_classification r env fs hd hv he ha hresp, if_pos hok]
  refine ⟨?_, ?_, ?_⟩ <;> rw [processSuccess_doc _ fs env.mailResp v hf]

/-- C2: batch issuance processes every document independently: the result
list is index-for-index the per-record outcome, and any exception escaping
the try body of one record is converted into state `error` with the message
stored and posted, never propagated. -/
theorem c2_batch_independent (batch : List (Boleta × EmitEnv)) :
    ((action_emitir_boleta batch).length = batch.length ∧
     ∀ i : Nat, (action_emitir_boleta batch).get? i =
       (batch.get? i).map (fun p => emitirOne p.1 p.2)) ∧
    (∀ (r : Boleta) (env : EmitEnv) (e : Eff) (err : String),
      emitirTryBody r env = (e, some err) →
      (emitirOne r env).doc.state = .error ∧
      (emitirOne r env).doc.error_message = some err ∧
      (emitirOne r env).msgs = e.msgs ++ [.errorEmitting err]) := by
  refine ⟨⟨?_, ?_⟩, ?_⟩
  · simp [action_emitir_boleta]
  · intro i
    simp [action_emitir_boleta]
  · intro r env e err h
    unfold emitirOne
    rw [h]
    exact ⟨rfl, rfl, rfl⟩

/-- C3 (amended): the path-style void requires HTTP 200/202 and surfaces any
other status as a failure carrying the status code and body; the legacy void
accepts only HTTP 200, surfacing any other status (202 included) with the
body only; an HTTP 202 with a success-indicating JSON body is accepted as
success by the path-style variant. -/
theorem c3_amended_status_gate (r : Boleta) (envL envP : AnulEnv) (respL respP : HttpResp)
    (hstate : (r.state == BState.emitted || r.state == BState.downloaded) = true)
    (hnum : (match r.numero_boleta with | some s => !(pyEmpty s) | none => false) = true)
    (hmot : (r.motivo_anulacion == some "1" || r.motivo_anulacion == some "2" ||
      r.motivo_anulacion == some "3") = true) :
    (envP.resp = .ok respP → (respP.status == 200 || respP.status == 202) = false →
      action_anular_boleta_path r envP =
        (mkEff r, some ("Error anulando boleta: " ++ toString respP.status ++ " - " ++
          strTake respP.text 300))) ∧
    (envL.resp = .ok respL → (respL.status == 200) = false →
      action_anular_boleta r envL =
        (mkEff r, some ("Error anulando boleta: Error anulando boleta: " ++
          strTake respL.text 300))) ∧
    (∀ fs : List (String × Json), envP.resp = .ok respP → respP.status = 202 →
      respP.jsonBody = some (.obj fs) →
      (pathSuccessFlag fs && !(getTruthy fs "error")) = true →
      (action_anular_boleta_path r envP).1.doc.state = .cancelled ∧
      (action_anular_boleta_path r envP).2 = none) := by
  refine ⟨?_, ?_, ?_⟩
  · intro henv hst
    unfold action_anular_boleta_path
    rw [henv]
    simp only [hstate, hnum, hmot, hst, Bool.not_true, Bool.false_eq_true, if_false]
  · intro henv hst
    unfold action_anular_boleta
    rw [henv]
    simp only [hstate, hst, Bool.not_true, Bool.false_eq_true, if_false, Bool.false_and]
    rfl
  · intro fs henv hst hjson hflag
    unfold action_anular_boleta_path
    rw [henv]
    have hst2 : (respP.status == 200 || respP.status == 202) = true := by
      rw [hst]; decide
    simp only [hstate, hnum, hmot, hst2, hjson, hflag, Bool.not_true, Bool.false_eq_true,
      if_false, if_true]
    exact ⟨rfl, trivial⟩

/-- C4: a response classified successful from which no folio can be
extracted puts the document in state `error` with the missing-folio message,
preserves the raw response in `response_data`, posts the notification and
raises no exception (the try body completes with `none`). -/
theorem c4_success_without_folio (r : Boleta) (env : EmitEnv)
    (fs : List (String × Json))
    (hd : pyEmpty r.descripcion_servicio = false)
    (hv : ¬ r.valor_bruto ≤ 0)
    (he : pyEmpty r.email_destinatario = false)
    (ha : r.email_destinatario.toList.contains '@' = true)
    (hresp : callSimpleapi env.emitResp = .ok (.obj fs))
    (hok : successClassified fs = true)
    (hf : folioOf fs = none) :
    (emitirOne r env).doc.state = .error ∧
    (emitirOne r env).doc.error_message = some "Respuesta exitosa pero sin número de boleta" ∧
    (emitirOne r env).doc.response_data = some (.obj fs) ∧
    (emitirOne r env).msgs = [.startingEmission, .successNoFolio (.obj fs)] ∧
    (emitirTryBody r env).2 = none := by
  rw [emitir_reaches_classification r env fs hd hv he ha hresp, if_pos hok]
  refine ⟨?_, ?_, ?_, ?_, ?_⟩
  · rw [processSuccess_doc_none _ fs env.mailResp hf]
  · rw [processSuccess_doc_none _ fs env.mailResp hf]
  · rw [processSuccess_doc_none _ fs env.mailResp hf]
  · rw [processSuccess_msgs_none _ fs env.mailResp hf]
    rfl
  · rw [emitirTryBody_classified r env fs hd hv he ha hresp]

/-- C5: legacy void on an emitted/downloaded document: HTTP 200 with a JSON
object without truthy `error` cancels the document; HTTP 200 with a truthy
`error` raises to the caller and leaves the whole record unchanged. -/
theorem c5_legacy_void_json (r : Boleta) (fs : List (String × Json)) (text : String)
    (hstate : (r.state == BState.emitted || r.state == BState.downloaded) = true) :
    (getTruthy fs "error" = false →
      action_anular_boleta r ⟨.ok ⟨200, text, some (.obj fs)⟩⟩ =
        (((mkEff r).setState .cancelled).post
          (.anulledLegacy r.numero_boleta (strTake text 300)), none)) ∧
    (getTruthy fs "error" = true →
      (action_anular_boleta r ⟨.ok ⟨200, text, some (.obj fs)⟩⟩).2 =
        some ("Error anulando boleta: Error anulando boleta: " ++ strTake text 300) ∧
      (action_anular_boleta r ⟨.ok ⟨200, text, some (.obj fs)⟩⟩).1.doc = r) := by
  constructor
  · intro herr
    unfold action_anular_boleta
    simp only [hstate, Bool.not_true, Bool.false_eq_true, if_false, anularLegacyOk, herr,
      Bool.not_false, Bool.and_self]
    rfl
  · intro herr
    unfold action_anular_boleta
    simp only [hstate, Bool.not_true, Bool.false_eq_true, if_false, anularLegacyOk, herr,
      Bool.not_true, Bool.and_false]
    exact ⟨rfl, rfl⟩

/-- C6: path-style void at HTTP 200/202 with an unparseable, keyword-free
body still cancels the document and posts the notification carrying the raw
(trimmed, previewed) body as evidence. -/
theorem c6_path_void_fallback_cancels (r : Boleta) (env : AnulEnv) (resp : HttpResp) (n : String)
    (hstate : (r.state == BState.emitted || r.state == BState.downloaded) = true)
    (hnum : r.numero_boleta = some n)
    (hne : pyEmpty n = false)
    (hmot : (r.motivo_anulacion == some "1" || r.motivo_anulacion == some "2" ||
      r.motivo_anulacion == some "3") = true)
    (henv : env.resp = .ok resp)
    (hst : (resp.status == 200 || resp.status == 202) = true)
    (hjson : resp.jsonBody = none)
    (hkw : (strContains (lowerStr (trimStr resp.text)) "anulada" ||
            strContains (lowerStr (trimStr resp.text)) "correctamente") = false) :
    action_anular_boleta_path r env =
      (((mkEff r).setState .cancelled).post
        (.anulledPathFallback (trimStr n) resp.status (strTake (trimStr resp.text) 300)), none) := by
  unfold action_anular_boleta_path
  rw [henv]
  simp only [hstate, hnum, hne, hmot, hst, hjson, hkw, Bool.not_true, Bool.not_false,
    Bool.false_eq_true, if_false, if_true, Bool.and_false, if_neg]

/-- C7: issuance is never rejected on account of the current state: the
outcome is identical for every initial state (including `emitted`), the
attempt counter rises by exactly 1, the first state write is `processing`,
and the processing timestamp is stamped — all regardless of how the attempt
later ends. -/
theorem c7_issue_always_reattempts (r : Boleta) (env : EmitEnv) :
    (emitirOne r env).doc.intentos = r.intentos + 1 ∧
    (emitirOne r env).stateTrace.head? = some .processing ∧
    (emitirOne r env).doc.fecha_procesamiento = some env.now ∧
    ∀ s, emitirOne { r with state := s } env = emitirOne r env := by
  obtain ⟨h1, h2, t, h3⟩ := emitirTryBody_doc_facts r env
  refine ⟨?_, ?_, ?_, fun s => rfl⟩
  · unfold emitirOne
    rcases hm : emitirTryBody r env with ⟨e, oerr⟩
    rw [hm] at h1
    simp only at h1
    cases oerr with
    | none => exact h1
    | some err => exact h1
  · unfold emitirOne
    rcases hm : emitirTryBody r env with ⟨e, oerr⟩
    rw [hm] at h3
    simp only at h3
    cases oerr with
    | none =>
      show e.stateTrace.head? = some BState.processing
      rw [h3]
      rfl
    | some err =>
      show (e.stateTrace ++ [BState.error]).head? = some BState.processing
      rw [h3]
      rfl
  · unfold emitirOne
    rcases hm : emitirTryBody r env with ⟨e, oerr⟩
    rw [hm] at h2
    simp only at h2
    cases oerr with
    | none => exact h2
    | some err => exact h2

/-- C8: after a successful issuance, the outcome of the mail request cannot
change the document (the final record is the same function of everything but
the mail outcome); a non-2xx mail response or a mail exception leaves state
`emitted`, folio and cleared error intact, adding only a notification. -/
theorem c8_mail_failure_is_frame_effect (r : Boleta) (env : EmitEnv)
    (fs : List (String × Json)) (v : Json)
    (hd : pyEmpty r.descripcion_servicio = false)
    (hv : ¬ r.valor_bruto ≤ 0)
    (he : pyEmpty r.email_destinatario = false)
    (ha : r.email_destinatario.toList.contains '@' = true)
    (hresp : callSimpleapi env.emitResp = .ok (.obj fs))
    (hok : successClassified fs = true)
    (hf : folioOf fs = some v) :
    (∀ m1 m2 : Except String HttpResp,
      (emitirOne r { env with mailResp := m1 }).doc =
        (emitirOne r { env with mailResp := m2 }).doc) ∧
    (∀ resp : HttpResp, env.mailResp = .ok resp →
      (resp.status == 200 || resp.status == 202) = false →
      mailCond r fs = true →
      (emitirOne r env).doc.state = .emitted ∧
      (emitirOne r env).doc.numero_boleta = some (pyStr v) ∧
      (emitirOne r env).doc.error_message = none ∧
      (emitirOne r env).msgs = [.startingEmission, .emittedOk (pyStr v),
        .mailRequestFailed resp.status (strTake resp.text 300)]) ∧
    (∀ err : String, env.mailResp = .error err →
      mailCond r fs = true →
      (emitirOne r env).doc.state = .emitted ∧
      (emitirOne r env).msgs = [.startingEmission, .emittedOk (pyStr v),
        .mailException err]) := by
  refine ⟨?_, ?_, ?_⟩
  · intro m1 m2
    rw [emitir_reaches_classification r { env with mailResp := m1 } fs hd hv he ha hresp,
      if_pos hok,
      emitir_reaches_classification r { env with mailResp := m2 } fs hd hv he ha hresp,
      if_pos hok]
    rw [processSuccess_doc _ fs m1 v hf, processSuccess_doc _ fs m2 v hf]
    rfl
  · intro resp hmr hs hmc
    rw [emitir_reaches_classification r env fs hd hv he ha hresp, if_pos hok]
    refine ⟨?_, ?_, ?_, ?_⟩
    · rw [processSuccess_doc _ fs env.mailResp v hf]
    · rw [processSuccess_doc _ fs env.mailResp v hf]
    · rw [processSuccess_doc _ fs env.mailResp v hf]
    · rw [processSuccess_eq _ fs env.mailResp v hf, hmr,
        mailBlock_msgs_fail _ fs (pyStr v) resp hmc hs]
      rfl
  · intro err hmr hmc
    rw [emitir_reaches_classification r env fs hd hv he ha hresp, if_pos hok]
    refine ⟨?_, ?_⟩
    · rw [processSuccess_doc _ fs env.mailResp v hf]
    · rw [processSuccess_eq _ fs env.mailResp v hf, hmr,
        mailBlock_msgs_exc _ fs (pyStr v) err hmc]
      rfl

/-- C9: the RUT validator agrees everywhere with the specification-worded
validator (strip/uppercase, length and digit guards, weighted checksum with
multiplier `2 + i % 6` over least-to-most significant digits, check digit
`0`/`K`/`11 - r`), and flipping the check character of any accepted RUT to a
different one (case-insensitively, non-separator) is rejected. -/
theorem c9_rut_validator :
    (∀ rut : String, _validate_rut rut = rutSpecValid rut) ∧
    (∀ (t : String) (c cf : Char),
      c ≠ '.' → c ≠ '-' → cf ≠ '.' → cf ≠ '-' →
      cf.toUpper ≠ c.toUpper →
      _validate_rut (t.push c) = true →
      _validate_rut (t.push cf) = false) := by
  refine ⟨validate_eq_spec, ?_⟩
  intro t c cf hc1 hc2 hf1 hf2 hne hval
  rw [validate_push_eq t c hc1 hc2] at hval
  rw [validate_push_eq t cf hf1 hf2]
  by_cases h1 : (upperStr (stripSeparators t)).toList.length + 1 < 8
  · rw [if_pos h1] at hval
    exact absurd hval (by simp)
  · rw [if_neg h1] at hval ⊢
    by_cases h2 : pyIsDigitStr (upperStr (stripSeparators t)).toList = true
    · simp only [h2, Bool.not_true, Bool.false_eq_true, if_false] at hval ⊢
      have hcv : c.toUpper = rutExpectedDv (rutFold
          ((upperStr (stripSeparators t)).toList.reverse.map (fun x => x.toNat - 48)) 2) :=
        eq_of_beq hval
      rw [← hcv]
      exact beq_eq_false_iff_ne.mpr hne
    · simp only [Bool.not_eq_true] at h2
      simp only [h2, Bool.not_false, if_true] at hval
      exact absurd hval (by simp)

/-- C10: in the legacy void at HTTP 200, a body that decodes to non-dict
JSON is a failure raised to the caller even if its text carries the
keywords; the keyword fallback cancels only when the body does not parse as
JSON at all. -/
theorem c10_legacy_keyword_only_on_parse_failure (r : Boleta) (text : String) (j : Json)
    (hstate : (r.state == BState.emitted || r.state == BState.downloaded) = true) :
    (Json.isObjB j = false →
      action_anular_boleta r ⟨.ok ⟨200, text, some j⟩⟩ =
        (mkEff r, some ("Error anulando boleta: Error anulando boleta: " ++ strTake text 300))) ∧
    ((strContains (lowerStr text) "anulada" || strContains (lowerStr text) "correctamente") = true →
      action_anular_boleta r ⟨.ok ⟨200, text, none⟩⟩ =
        (((mkEff r).setState .cancelled).post
          (.anulledLegacy r.numero_boleta (strTake text 300)), none)) := by
  constructor
  · intro hj
    have hok : anularLegacyOk ⟨200, text, some j⟩ = false := by
      cases j <;> simp [anularLegacyOk, Json.isObjB] at hj ⊢
    unfold action_anular_boleta
    simp only [hstate, Bool.not_true, Bool.false_eq_true, if_false, hok, Bool.and_false]
    rfl
  · intro hkw
    have hok : anularLegacyOk ⟨200, text, none⟩ = true := by
      simp [anularLegacyOk, hkw]
    unfold action_anular_boleta
    simp only [hstate, Bool.not_true, Bool.false_eq_true, if_false, hok, Bool.and_true]
    rfl

/-! ### Counterexamples and witnesses -/

/-- C1 counterexample: for the response with `numeroDocumento` present but
empty and `numero_boleta` equal to `"456"`, the claim classifies the response
successful (presence) and extracts folio `"456"`, so it requires `emitted`
with that folio; the code classifies by truthiness, takes the error branch
and ends in `error` with no folio assigned. -/
theorem c1_counterexample :
    specPresentClassified [("numeroDocumento", .str ""), ("numero_boleta", .str "456")] = true ∧
    folioOf [("numeroDocumento", .str ""), ("numero_boleta", .str "456")] = some (.str "456") ∧
    successClassified [("numeroDocumento", .str ""), ("numero_boleta", .str "456")] = false ∧
    (emitirOne docOk envPresentEmpty).doc.state = .error ∧
    (emitirOne docOk envPresentEmpty).doc.state ≠ .emitted ∧
    (emitirOne docOk envPresentEmpty).doc.numero_boleta = none :=
  ⟨rfl, rfl, rfl, rfl, by decide, rfl⟩

/-- C1 witness: the response `{"folio": "123", "anio": "2024"}` takes the
document to `emitted` with `numero_boleta = "123"` and no error message. -/
theorem c1_witness :
    (emitirOne docOk envOk).doc.state = .emitted ∧
    (emitirOne docOk envOk).doc.numero_boleta = some "123" ∧
    (emitirOne docOk envOk).doc.error_message = none :=
  c1_success_with_folio_emits docOk envOk
    [("folio", .str "123"), ("anio", .str "2024")] (.str "123")
    rfl (by decide) rfl rfl rfl rfl rfl

/-- C2 witness: in the three-document batch whose second document has an
invalid amount, all three are processed, the second ends in `error` with the
validation message, and the first (and third, identical) reaches `emitted`. -/
theorem c2_witness :
    (action_emitir_boleta batch3).length = batch3.length ∧
    (action_emitir_boleta batch3).get? 1 = some (emitirOne docBad envOk) ∧
    (emitirOne docBad envOk).doc.state = .error ∧
    (emitirOne docBad envOk).doc.error_message = some "El valor bruto debe ser mayor a cero" ∧
    (emitirOne docOk envOk).doc.state = .emitted := by
  obtain ⟨⟨hlen, hget⟩, herr⟩ := c2_batch_independent batch3
  have h2 := herr docBad envOk (emitirTryBody docBad envOk).1
    "El valor bruto debe ser mayor a cero" rfl
  refine ⟨hlen, ?_, h2.1, h2.2.1, rfl⟩
  rw [hget 1]
  rfl

/-- C3 counterexample: the legacy void at HTTP 202 with the success-indicating
body `{"error": null}` raises (doubly wrapped preview) and does not cancel —
202 is not accepted by the legacy variant. -/
theorem c3_counterexample :
    anulOk202.resp = .ok ⟨202, "okbody", some (.obj [("error", .null)])⟩ ∧
    (action_anular_boleta docEmitted anulOk202).2 =
      some ("Error anulando boleta: Error anulando boleta: " ++ strTake "okbody" 300) ∧
    (action_anular_boleta docEmitted anulOk202).1.doc.state = .emitted ∧
    (action_anular_boleta docEmitted anulOk202).1.doc.state ≠ .cancelled :=
  ⟨rfl, rfl, rfl, by decide⟩

/-- C3 witness: path-style void surfaces HTTP 404 with status and body and
leaves the record alone; legacy void fails at HTTP 202 with the body-only
message; path-style void at HTTP 202 with a success body cancels. -/
theorem c3_witness :
    action_anular_boleta_path docEmitted anul404 =
      (mkEff docEmitted, some ("Error anulando boleta: " ++ toString (404 : Nat) ++ " - " ++
        strTake "not found" 300)) ∧
    action_anular_boleta docEmitted anulOk202 =
      (mkEff docEmitted, some ("Error anulando boleta: Error anulando boleta: " ++
        strTake "okbody" 300)) ∧
    (action_anular_boleta_path docEmitted anulOk202).1.doc.state = .cancelled ∧
    (action_anular_boleta_path docEmitted anulOk202).2 = none := by
  obtain ⟨hp, hl, _⟩ := c3_amended_status_gate docEmitted anulOk202 anul404
    ⟨202, "okbody", some (.obj [("error", .null)])⟩ ⟨404, "not found", none⟩ rfl rfl rfl
  obtain ⟨_, _, h202⟩ := c3_amended_status_gate docEmitted anulOk202 anulOk202
    ⟨202, "okbody", some (.obj [("error", .null)])⟩ ⟨202, "okbody", some (.obj [("error", .null)])⟩
    rfl rfl rfl
  obtain ⟨hc1, hc2⟩ := h202 [("error", .null)] rfl rfl rfl rfl
  exact ⟨hp rfl rfl, hl rfl rfl, hc1, hc2⟩

/-- C4 witness: the ambiguous response `{"success": true}` ends in `error`
with the missing-folio message, the raw response stored, the notification
posted and no exception escaping the try body. -/
theorem c4_witness :
    (emitirOne docOk envSuccessNoFolio).doc.state = .error ∧
    (emitirOne docOk envSuccessNoFolio).doc.error_message =
      some "Respuesta exitosa pero sin número de boleta" ∧
    (emitirOne docOk envSuccessNoFolio).doc.response_data =
      some (.obj [("success", .bool true)]) ∧
    (emitirOne docOk envSuccessNoFolio).msgs =
      [.startingEmission, .successNoFolio (.obj [("success", .bool true)])] ∧
    (emitirTryBody docOk envSuccessNoFolio).2 = none :=
  c4_success_without_folio docOk envSuccessNoFolio [("success", .bool true)]
    rfl (by decide) rfl rfl rfl rfl rfl

/-- C5 witness: `{"error": null}` at HTTP 200 cancels the emitted document;
`{"error": "x"}` at HTTP 200 raises and leaves the record untouched. -/
theorem c5_witness :
    action_anular_boleta docEmitted anulOk200 =
      (((mkEff docEmitted).setState .cancelled).post
        (.anulledLegacy (some "99") (strTake "okbody" 300)), none) ∧
    (action_anular_boleta docEmitted anulErr200).2 =
      some ("Error anulando boleta: Error anulando boleta: " ++ strTake "x" 300) ∧
    (action_anular_boleta docEmitted anulErr200).1.doc = docEmitted :=
  ⟨(c5_legacy_void_json docEmitted [("error", .null)] "okbody" rfl).1 rfl,
   (c5_legacy_void_json docEmitted [("error", .str "x")] "x" rfl).2 rfl⟩

/-- C6 witness: the unparseable keyword-free body `"OK"` at HTTP 200 still
cancels the document, with the raw body preserved in the notification. -/
theorem c6_witness :
    action_anular_boleta_path docEmitted anulTxtPlain =
      (((mkEff docEmitted).setState .cancelled).post
        (.anulledPathFallback (trimStr "99") 200 (strTake (trimStr "OK") 300)), none) :=
  c6_path_void_fallback_cancels docEmitted anulTxtPlain ⟨200, "OK", none⟩ "99"
    rfl rfl rfl rfl rfl rfl rfl rfl

/-- C8 witness: a mail request answered HTTP 500, or raising, leaves the
issued document `emitted` with folio `"123"` and no error, adds only the
corresponding notification, and produces the same record as a successful
mail request. -/
theorem c8_witness :
    (emitirOne docOk envMailFail).doc.state = .emitted ∧
    (emitirOne docOk envMailFail).doc.numero_boleta = some "123" ∧
    (emitirOne docOk envMailFail).doc.error_message = none ∧
    (emitirOne docOk envMailFail).msgs =
      [.startingEmission, .emittedOk "123", .mailRequestFailed 500 (strTake "boom" 300)] ∧
    (emitirOne docOk envMailExc).doc.state = .emitted ∧
    (emitirOne docOk envMailExc).msgs =
      [.startingEmission, .emittedOk "123", .mailException "timeout"] ∧
    (emitirOne docOk envMailFail).doc = (emitirOne docOk envOk).doc := by
  obtain ⟨hframe, hfail, _⟩ := c8_mail_failure_is_frame_effect docOk envMailFail
    [("folio", .str "123"), ("anio", .str "2024")] (.str "123")
    rfl (by decide) rfl rfl rfl rfl rfl
  obtain ⟨_, _, hexc⟩ := c8_mail_failure_is_frame_effect docOk envMailExc
    [("folio", .str "123"), ("anio", .str "2024")] (.str "123")
    rfl (by decide) rfl rfl rfl rfl rfl
  obtain ⟨h1, h2, h3, h4⟩ := hfail ⟨500, "boom", none⟩ rfl rfl rfl
  obtain ⟨h5, h6⟩ := hexc "timeout" rfl rfl
  exact ⟨h1, h2, h3, h4, h5, h6, hframe (.ok ⟨500, "boom", none⟩) (.ok respMailOk)⟩

/-- C9 witness: the checksum-correct `"12345678-5"` is accepted (and agrees
with the spec-side validator); flipping its check digit to `6` is rejected;
a 7-character input is rejected. -/
theorem c9_witness :
    _validate_rut "12345678-5" = rutSpecValid "12345678-5" ∧
    _validate_rut "12345678-5" = true ∧
    _validate_rut (String.push "12345678-" '6') = false ∧
    _validate_rut "1234567" = false := by
  obtain ⟨heq, hflip⟩ := c9_rut_validator
  refine ⟨heq "12345678-5", by decide, ?_, by decide⟩
  exact hflip "12345678-" '5' '6' (by decide) (by decide) (by decide) (by decide)
    (by decide) (by decide)

/-- C10 witness: a body decoding to the JSON array `["anulada"]` whose text
contains the keyword still raises; an unparseable keyword body cancels. -/
theorem c10_witness :
    strContains (lowerStr "[x anulada]") "anulada" = true ∧
    action_anular_boleta docEmitted anulArr200 =
      (mkEff docEmitted, some ("Error anulando boleta: Error anulando boleta: " ++
        strTake "[x anulada]" 300)) ∧
    action_anular_boleta docEmitted anulTxtKw =
      (((mkEff docEmitted).setState .cancelled).post
        (.anulledLegacy (some "99") (strTake "Boleta anulada correctamente" 300)), none) := by
  obtain ⟨hjson, _⟩ := c10_legacy_keyword_only_on_parse_failure docEmitted
    "[x anulada]" (.arr [.str "anulada"]) rfl
  obtain ⟨_, hkw⟩ := c10_legacy_keyword_only_on_parse_failure docEmitted
    "Boleta anulada correctamente" (.arr []) rfl
  exact ⟨rfl, hjson rfl, hkw (by decide)⟩
